import Mathlib

/-!
Verification development for the frat-treasurer dues ledger and storage
engine (`app.py`).  The definitions below are a shallow embedding of the
`TreasurerApp` methods that the specification talks about: the compressed
document store (`save_data` / `load_data` / `_create_backup` /
`_restore_from_backup`), the schedule generator, the balance/status
computation, and the ledger mutations (`add_transaction`,
`remove_transaction`, `record_payment`, `add_member`, `update_member`,
`_remove_corresponding_member_payment`).

Modelling conventions:
* Python floats that hold money amounts are modelled as rationals.
* ISO timestamp strings that are only ever compared after parsing
  (`datetime.fromisoformat`) are modelled as integer epoch seconds.
* `uuid.uuid4()` and `datetime.now()` are passed in as explicit arguments.
* A persistence call that raises is modelled by a boolean failure flag on
  the operation; an operation returns the (possibly mutated) state
  together with `Except Unit r`, where `.error ()` is a raised exception.
* The on-disk state for one logical name is the quadruple of the plain
  file, the `.gz` file and their `.backup` copies.  A file whose write was
  interrupted (`open`/`gzip.open` created or truncated it, then
  `json.dump` raised) is recorded as `corrupt`: loading it raises.
-/

namespace FratTreasurer

/-- Content of one on-disk file: either a fully written JSON document, or
a partially written file (created by `open(..., 'w')` / `gzip.open` before
the dump raised) whose parse raises. -/
inductive FileContent (α : Type) where
  | ok (d : α)
  | corrupt
deriving DecidableEq

/-- The on-disk state belonging to one logical document name `fp`:
`fp` itself, `fp + '.gz'`, `fp + '.backup'` and `fp + '.gz.backup'`. -/
structure FS (α : Type) where
  plain : Option (FileContent α) := none
  gz : Option (FileContent α) := none
  plainBackup : Option (FileContent α) := none
  gzBackup : Option (FileContent α) := none
deriving DecidableEq

/-- The raw file-reading part of `TreasurerApp.load_data`: prefer the
compressed file, else the plain file, else report "no file" (`none`).
A non-empty parsed document is returned as `some d`; an empty one falls
through to the caller's default (`none` here), mirroring `if data:`.
Parsing a corrupt file raises. -/
def load_raw {α : Type} (isEmpty : α → Bool) (fs : FS α) :
    Except Unit (Option α) :=
  match fs.gz with
  | some (.ok d) => if isEmpty d then .ok none else .ok (some d)
  | some .corrupt => .error ()
  | none =>
    match fs.plain with
    | some (.ok d) => if isEmpty d then .ok none else .ok (some d)
    | some .corrupt => .error ()
    | none => .ok none

/-- `TreasurerApp.load_data fp default`: read the raw document and, when it
is present and truthy, apply the per-name object conversion `conv`;
otherwise return `dflt`. -/
def load_data {α β : Type} (isEmpty : α → Bool) (conv : α → β) (dflt : β)
    (fs : FS α) : Except Unit β :=
  match load_raw isEmpty fs with
  | .error () => .error ()
  | .ok none => .ok dflt
  | .ok (some d) => .ok (conv d)

/-- `TreasurerApp._create_backup`: copy the plain file to `.backup` when it
exists, else copy the `.gz` file to `.gz.backup` when that exists. -/
def createBackup {α : Type} (fs : FS α) : FS α :=
  match fs.plain with
  | some c => { fs with plainBackup := some c }
  | none =>
    match fs.gz with
    | some c => { fs with gzBackup := some c }
    | none => fs

/-- `TreasurerApp._restore_from_backup`: copy `.backup` back over the plain
file when it exists, else copy `.gz.backup` back over the `.gz` file. -/
def restoreFromBackup {α : Type} (fs : FS α) : FS α :=
  match fs.plainBackup with
  | some c => { fs with plain := some c }
  | none =>
    match fs.gzBackup with
    | some c => { fs with gz := some c }
    | none => fs

/-- `TreasurerApp.save_data`: back up critical documents, then write the
compressed form when the compact JSON encoding exceeds 3000 bytes (and
remove the plain file), else write the plain form; verify by re-loading;
on any raise, restore from backup (when one was attempted) and re-raise.
`critical` is `'members.json' in fp or 'users.json' in fp`; `failWrite`
injects a write failure, which leaves the written file `corrupt`. -/
def save_data {α : Type} (isEmpty : α → Bool) (encSize : α → Nat)
    (critical : Bool) (failWrite : Bool) (fs : FS α) (d : α) :
    FS α × Except Unit Unit :=
  let fs1 := if critical then createBackup fs else fs
  let shouldCompress := encSize d > 3000
  let written : FS α × Bool :=
    if shouldCompress then
      if failWrite then ({ fs1 with gz := some .corrupt }, false)
      else
        let fs2 := { fs1 with gz := some (.ok d) }
        (if fs2.plain.isSome then { fs2 with plain := none } else fs2, true)
    else
      if failWrite then ({ fs1 with plain := some .corrupt }, false)
      else ({ fs1 with plain := some (.ok d) }, true)
  let fs2 := written.1
  if written.2 then
    match load_raw isEmpty fs2 with
    | .error () =>
      (if critical then restoreFromBackup fs2 else fs2, .error ())
    | .ok none =>
      (if critical then restoreFromBackup fs2 else fs2, .error ())
    | .ok (some td) =>
      if isEmpty td && !(isEmpty d) then
        (if critical then restoreFromBackup fs2 else fs2, .error ())
      else (fs2, .ok ())
  else
    (if critical then restoreFromBackup fs2 else fs2, .error ())

/-- A serialized JSON document as `save_data`/`load_data` see it at the
store level: the only attributes the store inspects are the length of its
compact encoding (`json_size`), its Python truthiness (`len(x) > 0`), and
its identity.  `tag` distinguishes distinct documents. -/
structure Doc where
  encSize : Nat
  nonNil : Bool
  tag : Nat
deriving DecidableEq

/-- Python falsiness of a `Doc` (`len(data) == 0`). -/
def Doc.isEmpty (d : Doc) : Bool := !d.nonNil

/-- The compact-encoding byte size of a `Doc`. -/
def Doc.size (d : Doc) : Nat := d.encSize

/-- `save_data` instantiated at the store level. -/
def saveDoc (critical failWrite : Bool) (fs : FS Doc) (d : Doc) :
    FS Doc × Except Unit Unit :=
  save_data Doc.isEmpty Doc.size critical failWrite fs d

/-- `load_data fp None` instantiated at the store level. -/
def loadDoc (fs : FS Doc) : Except Unit (Option Doc) :=
  load_raw Doc.isEmpty fs

/-! ## In-memory data model (`@dataclass` definitions in `app.py`) -/

/-- One entry of `Member.payments_made` (a dict built in `record_payment`):
`amount`, `date` (ISO timestamp, modelled as epoch seconds), `method`,
`id`, and the optional `transaction_id` back-reference (absent on legacy
payments). -/
structure Payment where
  amount : ℚ
  date : Int
  method : String
  id : String
  transaction_id : Option String
deriving DecidableEq

/-- The `Transaction` dataclass: note the `semester_id` field with default
`'current'`. `date` is an ISO timestamp modelled as epoch seconds. -/
structure Transaction where
  id : String
  date : Int
  category : String
  description : String
  amount : ℚ
  type : String
  semester_id : String := "current"
deriving DecidableEq

/-- One entry of `Member.custom_schedule`: a dict with keys `due_date`,
`amount` and `description`. -/
structure Installment where
  due_date : String
  amount : ℚ
  description : String
deriving DecidableEq

/-- The `Member` dataclass (post `__post_init__`, so `payments_made` is a
list, never `None`). -/
structure Member where
  id : String
  name : String
  contact : String
  dues_amount : ℚ
  payment_plan : String
  custom_schedule : List Installment
  payments_made : List Payment
  contact_type : String := "phone"
  semester_id : String := "current"
  role : String := "brother"
  user_id : Option String := none
deriving DecidableEq

/-- The contact test used both in `Member.__post_init__` and in
`add_member`/`update_member`: `'@' in contact and '.' in contact`
(membership of a single character in the contact string). -/
def emailLike (contact : String) : Bool :=
  contact.toList.contains '@' && contact.toList.contains '.'

/-- `Member.__post_init__`: a member whose `contact_type` is `'phone'` but
whose contact looks like an email address is reclassified as `'email'`. -/
def Member.postInit (m : Member) : Member :=
  if m.contact_type = "phone" && emailLike m.contact then
    { m with contact_type := "email" }
  else m

/-- The `Semester` dataclass. -/
structure Semester where
  id : String
  name : String
  year : Int
  season : String
  start_date : String
  end_date : String
  is_current : Bool := false
  archived : Bool := false
deriving DecidableEq

/-- The `PendingBrother` dataclass. -/
structure PendingBrother where
  id : String
  full_name : String
  phone : String
  email : String
  registration_date : String
  verification_token : String
  is_verified : Bool := false
  member_id : Option String := none
  user_id : Option String := none
deriving DecidableEq

/-- The part of `TreasurerApp`'s in-memory state the ledger mutations
touch: `self.members` (an insertion-ordered dict, modelled as an
association list) and `self.transactions`. -/
structure LedgerState where
  members : List (String × Member)
  transactions : List Transaction
deriving DecidableEq

/-- `member_id in self.members` / `self.members[member_id]` lookup. -/
def lookupMember (ms : List (String × Member)) (k : String) :
    Option Member :=
  (ms.find? (fun p => p.1 = k)).map (fun p => p.2)

/-- In-place mutation of `self.members[member_id]`. -/
def setMember (ms : List (String × Member)) (k : String)
    (f : Member → Member) : List (String × Member) :=
  ms.map (fun p => if p.1 = k then (p.1, f p.2) else p)

/-! ## Schedule generation and status (`generate_payment_schedule`,
`get_member_payment_schedule`) -/

/-- `TreasurerApp.generate_payment_schedule`, per member.  The calendar
computation of each due date (`current_date.replace(day=1) + 32*i days`
etc.) is abstracted by `dueDate i`; `nowIso` is
`datetime.now().isoformat()`.  The method first clears
`member.custom_schedule` and then rebuilds it for the `monthly`,
`bimonthly` and `semester` plans; for any other plan (including `custom`)
the schedule stays cleared. -/
def generate_payment_schedule (dueDate : Nat → String) (nowIso : String)
    (m : Member) : Member :=
  if m.payment_plan = "monthly" then
    { m with custom_schedule := (List.range 4).map (fun i =>
        ⟨dueDate i, m.dues_amount / 4,
         "Monthly payment " ++ toString (i + 1) ++ "/4"⟩) }
  else if m.payment_plan = "bimonthly" then
    { m with custom_schedule := (List.range 2).map (fun i =>
        ⟨dueDate i, m.dues_amount / 2,
         "Bi-monthly payment " ++ toString (i + 1) ++ "/2"⟩) }
  else if m.payment_plan = "semester" then
    { m with custom_schedule := [⟨nowIso, m.dues_amount,
        "Full semester payment"⟩] }
  else
    { m with custom_schedule := [] }

/-- `TreasurerApp.generate_payment_schedule` at the state level: no-op on
an unknown `member_id`. -/
def generate_payment_schedule_st (dueDate : Nat → String) (nowIso : String)
    (st : LedgerState) (member_id : String) : LedgerState :=
  if (lookupMember st.members member_id).isSome then
    let f := generate_payment_schedule dueDate nowIso
    { st with members := setMember st.members member_id f }
  else st

/-- One entry of the list returned by `get_member_payment_schedule`:
the scheduled payment's own keys plus `status` and `amount_due`. -/
structure ScheduledStatus where
  due_date : String
  amount : ℚ
  description : String
  status : String
  amount_due : ℚ
deriving DecidableEq

/-- The loop of `get_member_payment_schedule`: walk the schedule keeping
`running_total`; an installment is `paid` when `total_paid` has reached
the running total, else `pending` with
`amount_due = min(max(0, running_total - total_paid), amount)`. -/
def scheduleLoop (totalPaid : ℚ) : ℚ → List Installment →
    List ScheduledStatus
  | _, [] => []
  | running, sp :: rest =>
    let running' := running + sp.amount
    let status := if totalPaid ≥ running' then "paid" else "pending"
    let amount_due : ℚ :=
      if status = "pending" then max 0 (running' - totalPaid) else 0
    ⟨sp.due_date, sp.amount, sp.description, status,
      min amount_due sp.amount⟩ :: scheduleLoop totalPaid running' rest

/-- `TreasurerApp.get_member_payment_schedule`. -/
def get_member_payment_schedule (st : LedgerState) (member_id : String) :
    List ScheduledStatus :=
  match lookupMember st.members member_id with
  | none => []
  | some m =>
    let totalPaid := (m.payments_made.map (fun p => p.amount)).sum
    scheduleLoop totalPaid 0 m.custom_schedule

/-! ## Ledger mutations

Every mutation ends with `self.save_data(...)`.  The boolean flags `sfT`
(the save of `transactions.json` raises) and `sfM` (the save of
`members.json` raises) inject persistence failures.  As in Python, a
raise after an in-place mutation leaves the mutation in the returned
state: the operations return the state the `TreasurerApp` object holds
when control returns (or the exception escapes), paired with the
result/exception. -/

/-- `TreasurerApp.add_transaction`.  `newId` stands for `uuid.uuid4()` and
`now` for `datetime.now()`. -/
def add_transaction (st : LedgerState) (sfT : Bool)
    (category description : String) (amount : ℚ) (ttype : String)
    (newId : String) (now : Int) : LedgerState × Except Unit String :=
  let t : Transaction :=
    { id := newId, date := now, category := category,
      description := description, amount := amount, type := ttype }
  let st1 := { st with transactions := st.transactions ++ [t] }
  if sfT then (st1, .error ()) else (st1, .ok newId)

/-- `TreasurerApp.record_payment`: first append a `Dues Collection` income
transaction (to obtain its id), then append the linked payment to the
member and save members. -/
def record_payment (st : LedgerState) (sfT sfM : Bool) (member_id : String)
    (amount : ℚ) (payment_method : String) (date : Option Int)
    (newTid newPid : String) (now : Int) :
    LedgerState × Except Unit Bool :=
  match lookupMember st.members member_id with
  | none => (st, .ok false)
  | some m =>
    let r := add_transaction st sfT "Dues Collection"
      ("Payment from " ++ m.name) amount "income" newTid now
    match r.2 with
    | .error () => (r.1, .error ())
    | .ok tid =>
      let p : Payment :=
        { amount := amount, date := date.getD now,
          method := payment_method, id := newPid,
          transaction_id := some tid }
      let appendP : Member → Member := fun mm =>
        { mm with payments_made := mm.payments_made ++ [p] }
      let st2 :=
        { r.1 with members := setMember r.1.members member_id appendP }
      if sfM then (st2, .error ()) else (st2, .ok true)

/-- `TreasurerApp.add_member`: auto-detect the contact type, store the
member (with the caller's `custom_schedule or []`), then invoke
`generate_payment_schedule` on the new member, then save members. -/
def add_member (st : LedgerState) (sfM : Bool) (newId name contact : String)
    (dues_amount : ℚ) (payment_plan : String)
    (custom_schedule : Option (List Installment))
    (dueDate : Nat → String) (nowIso : String) :
    LedgerState × Except Unit String :=
  let contact_type := if emailLike contact then "email" else "phone"
  let m : Member :=
    Member.postInit
      { id := newId, name := name, contact := contact,
        dues_amount := dues_amount, payment_plan := payment_plan,
        custom_schedule := custom_schedule.getD [], payments_made := [],
        contact_type := contact_type }
  let st1 := { st with members := st.members ++ [(newId, m)] }
  let st2 := generate_payment_schedule_st dueDate nowIso st1 newId
  if sfM then (st2, .error ()) else (st2, .ok newId)

/-- `TreasurerApp.update_member`: update the identity fields (re-detecting
the contact type), optionally the role; keep a supplied custom schedule
verbatim, otherwise regenerate the schedule from the plan; then save
members. -/
def update_member (st : LedgerState) (sfM : Bool) (member_id name contact :
    String) (dues_amount : ℚ) (payment_plan : String)
    (custom_schedule : Option (List Installment)) (role : Option String)
    (dueDate : Nat → String) (nowIso : String) :
    LedgerState × Except Unit Bool :=
  match lookupMember st.members member_id with
  | none => (st, .ok false)
  | some _ =>
    let contact_type := if emailLike contact then "email" else "phone"
    let upd : Member → Member := fun m =>
      let m1 :=
        { m with
          name := name
          contact := contact
          contact_type := contact_type
          dues_amount := dues_amount
          payment_plan := payment_plan }
      let m2 := match role with
        | some r => { m1 with role := r }
        | none => m1
      match custom_schedule with
      | some cs => { m2 with custom_schedule := cs }
      | none => m2
    let st1 := { st with members := setMember st.members member_id upd }
    let st2 := match custom_schedule with
      | some _ => st1
      | none => generate_payment_schedule_st dueDate nowIso st1 member_id
    if sfM then (st2, .error ()) else (st2, .ok true)

/-! ## Transaction removal and the consistency guard -/

/-- First-match-by-`transaction_id` test of
`_remove_corresponding_member_payment`:
`payment.get('transaction_id') == transaction.id`. -/
def exactMatch (t : Transaction) (p : Payment) : Bool :=
  p.transaction_id = some t.id

/-- The fallback test of `_remove_corresponding_member_payment`:
`payment['amount'] == transaction.amount` and the timestamps differ by
strictly less than 60 seconds. -/
def fuzzyMatch (t : Transaction) (p : Payment) : Bool :=
  p.amount = t.amount && (p.date - t.date).natAbs < 60

/-- The per-payment test of the loop body: the exact check runs first and
returns; otherwise the fallback check runs on the same payment before the
loop advances. -/
def paymentMatch (t : Transaction) (p : Payment) : Bool :=
  exactMatch t p || fuzzyMatch t p

/-- The inner loop of `_remove_corresponding_member_payment` over one
member's `payments_made`: delete the first payment matching either test
and stop; `none` when no payment of this member matches. -/
def removePaymentLoop (t : Transaction) :
    List Payment → Option (List Payment)
  | [] => none
  | p :: ps =>
    if paymentMatch t p then some ps
    else (removePaymentLoop t ps).map (fun rest => p :: rest)

/-- The outer loop of `_remove_corresponding_member_payment` over
`self.members.items()` (insertion order): the first member holding a
matching payment has that payment deleted; `none` when nothing matched
anywhere. -/
def removeCorrespondingLoop (t : Transaction) :
    List (String × Member) → Option (List (String × Member))
  | [] => none
  | (k, m) :: rest =>
    match removePaymentLoop t m.payments_made with
    | some ps => some ((k, { m with payments_made := ps }) :: rest)
    | none =>
      (removeCorrespondingLoop t rest).map (fun ms => (k, m) :: ms)

/-- `TreasurerApp._remove_corresponding_member_payment`: on a match,
delete the payment and save members (returning `True`); otherwise return
`False` without saving. -/
def remove_corresponding_member_payment (st : LedgerState) (sfM : Bool)
    (t : Transaction) : LedgerState × Except Unit Bool :=
  match removeCorrespondingLoop t st.members with
  | some ms =>
    let st1 := { st with members := ms }
    if sfM then (st1, .error ()) else (st1, .ok true)
  | none => (st, .ok false)

/-- Index and value of the first transaction with the given id
(`for i, transaction in enumerate(self.transactions)`). -/
def firstWithId : List Transaction → String → Option (Nat × Transaction)
  | [], _ => none
  | t :: ts, tid =>
    if t.id = tid then some (0, t)
    else (firstWithId ts tid).map (fun p => (p.1 + 1, p.2))

/-- `TreasurerApp.remove_transaction`: find the transaction; when it is a
`Dues Collection` income transaction, first run the consistency guard
(whose members save may raise and escape); then delete the transaction at
its index and save transactions. -/
def remove_transaction (st : LedgerState) (sfM sfT : Bool)
    (transaction_id : String) : LedgerState × Except Unit Bool :=
  match firstWithId st.transactions transaction_id with
  | none => (st, .ok false)
  | some (i, t) =>
    let guard : LedgerState × Except Unit Bool :=
      if t.category = "Dues Collection" && t.type = "income" then
        remove_corresponding_member_payment st sfM t
      else (st, .ok false)
    match guard.2 with
    | .error () => (guard.1, .error ())
    | .ok _ =>
      let st2 := { guard.1 with
        transactions := guard.1.transactions.eraseIdx i }
      if sfT then (st2, .error ()) else (st2, .ok true)

/-! ## Per-name document shapes and their load-time reconstruction

`save_data` serializes each object with `asdict`, which at this level is
the identity on the structures above (a dataclass and its field dict are
the same value); `load_data` rebuilds the objects from the parsed dict,
reading the keys listed in its per-name branch. -/

/-- The `members` document: member-id → Member (dict order preserved). -/
abbrev MembersDoc := List (String × Member)

/-- The `transactions` document: ordered list of Transaction. -/
abbrev TransactionsDoc := List Transaction

/-- The `semesters` document: semester-id → Semester. -/
abbrev SemestersDoc := List (String × Semester)

/-- The `pending_brothers` document: id → PendingBrother. -/
abbrev PendingDoc := List (String × PendingBrother)

/-- The `members.json` branch of `load_data`: rebuild a `Member` from a
saved record.  Every field of the record is read back (with `contact`
falling back to the legacy `phone` key, which a record written by
`save_data` never needs), and the `Member` constructor re-runs
`__post_init__`. -/
def loadMemberRecord (r : Member) : Member :=
  Member.postInit
    { id := r.id
      name := r.name
      contact := r.contact
      dues_amount := r.dues_amount
      payment_plan := r.payment_plan
      custom_schedule := r.custom_schedule
      payments_made := r.payments_made
      contact_type := r.contact_type
      semester_id := r.semester_id
      role := r.role
      user_id := r.user_id }

/-- The `transactions.json` branch of `load_data`: the constructor call
passes `id`, `date`, `category`, `description`, `amount` and `type`, but
NOT `semester_id`, which therefore takes the dataclass default
`'current'`. -/
def loadTransactionRecord (r : Transaction) : Transaction :=
  { id := r.id
    date := r.date
    category := r.category
    description := r.description
    amount := r.amount
    type := r.type }

/-- The `semesters.json` branch of `load_data`: every field is read back
(the `.get` defaults never fire on a record written by `save_data`). -/
def loadSemesterRecord (r : Semester) : Semester :=
  { id := r.id
    name := r.name
    year := r.year
    season := r.season
    start_date := r.start_date
    end_date := r.end_date
    is_current := r.is_current
    archived := r.archived }

/-- The `pending_brothers.json` branch of `load_data`: every field is
read back. -/
def loadPendingRecord (r : PendingBrother) : PendingBrother :=
  { id := r.id
    full_name := r.full_name
    phone := r.phone
    email := r.email
    registration_date := r.registration_date
    verification_token := r.verification_token
    is_verified := r.is_verified
    member_id := r.member_id
    user_id := r.user_id }

/-! ## Save-then-load round trips

Each round trip saves document `d` under its logical name into a fresh
store (no pre-existing files) and immediately loads it back with the
defaults the application uses.  `encSize` is the length of the compact
JSON encoding; the round trip is stated for an arbitrary size function
because both the plain and the compressed branch store the same
serialized value. -/

/-- Save then load the `members` document (critical, so backed up). -/
def saveLoadMembers (encSize : MembersDoc → Nat) (d : MembersDoc) :
    Except Unit MembersDoc :=
  let r := save_data (fun x => x.isEmpty) encSize true false {} d
  match r.2 with
  | .error () => .error ()
  | .ok () =>
    load_data (fun x => x.isEmpty)
      (fun x => x.map (fun p => (p.1, loadMemberRecord p.2))) [] r.1

/-- Save then load the `transactions` document. -/
def saveLoadTransactions (encSize : TransactionsDoc → Nat)
    (d : TransactionsDoc) : Except Unit TransactionsDoc :=
  let r := save_data (fun x => x.isEmpty) encSize false false {} d
  match r.2 with
  | .error () => .error ()
  | .ok () =>
    load_data (fun x => x.isEmpty)
      (fun x => x.map loadTransactionRecord) [] r.1

/-- Save then load the `semesters` document. -/
def saveLoadSemesters (encSize : SemestersDoc → Nat) (d : SemestersDoc) :
    Except Unit SemestersDoc :=
  let r := save_data (fun x => x.isEmpty) encSize false false {} d
  match r.2 with
  | .error () => .error ()
  | .ok () =>
    load_data (fun x => x.isEmpty)
      (fun x => x.map (fun p => (p.1, loadSemesterRecord p.2))) [] r.1

/-- Save then load the `pending_brothers` document. -/
def saveLoadPending (encSize : PendingDoc → Nat) (d : PendingDoc) :
    Except Unit PendingDoc :=
  let r := save_data (fun x => x.isEmpty) encSize false false {} d
  match r.2 with
  | .error () => .error ()
  | .ok () =>
    load_data (fun x => x.isEmpty)
      (fun x => x.map (fun p => (p.1, loadPendingRecord p.2))) [] r.1

/-- Save then load a plain document (the `else: return data` branch of
both `save_data` and `load_data`, e.g. `budget.json`). -/
def saveLoadPlain (encSize : Doc → Nat) (dflt : Doc) (d : Doc) :
    Except Unit Doc :=
  let r := save_data Doc.isEmpty encSize false false {} d
  match r.2 with
  | .error () => .error ()
  | .ok () => load_data Doc.isEmpty (fun x => x) dflt r.1

deriving instance DecidableEq for Except

/-! ## Concrete specimen records (used to instantiate the theorems) -/

/-- A member with a phone contact and a machine-generated (empty, not yet
generated) schedule. -/
def exMember : Member :=
  { id := "m1", name := "A", contact := "5551234", dues_amount := 100,
    payment_plan := "monthly", custom_schedule := [], payments_made := [] }

/-- An expense transaction with the default semester. -/
def exTransaction : Transaction :=
  { id := "t1", date := 0, category := "Rent", description := "x",
    amount := 10, type := "expense" }

/-- A semester record. -/
def exSemester : Semester :=
  { id := "f24", name := "Fall 2024", year := 2024, season := "Fall",
    start_date := "2024-09-01", end_date := "2024-12-20" }

/-- A pending brother record. -/
def exPending : PendingBrother :=
  { id := "p1", full_name := "B", phone := "5550000", email := "b@x.com",
    registration_date := "2024-09-02", verification_token := "tok" }

/-- A member on the `custom` plan with a caller-supplied two-installment
schedule. -/
def exCustomMember : Member :=
  { id := "m2", name := "Bob", contact := "5559876", dues_amount := 300,
    payment_plan := "custom",
    custom_schedule := [⟨"2025-01-01", 200, "first"⟩,
                        ⟨"2025-03-01", 100, "second"⟩],
    payments_made := [] }

/-- A `Dues Collection` income transaction of amount 25 at time 1000. -/
def exDuesTransaction : Transaction :=
  { id := "T1", date := 1000, category := "Dues Collection",
    description := "dues", amount := 25, type := "income" }

/-- A legacy payment with no `transaction_id`, amount 25, 30 seconds
after `exDuesTransaction` — a fuzzy match for it. -/
def exLegacyPayment : Payment :=
  { amount := 25, date := 1030, method := "cash", id := "p1",
    transaction_id := none }

/-- A payment whose `transaction_id` is exactly `exDuesTransaction.id`. -/
def exLinkedPayment : Payment :=
  { amount := 40, date := 5000, method := "venmo", id := "p2",
    transaction_id := some "T1" }

/-- A member holding the legacy payment before the linked payment. -/
def exPayerMember : Member :=
  { exMember with payments_made := [exLegacyPayment, exLinkedPayment] }

/-- A member with installments [100, 100, 100] and a single payment of
150 (the FIFO-allocation example of the specification). -/
def exFifoMember : Member :=
  { exMember with
    custom_schedule := [⟨"d1", 100, "i1"⟩, ⟨"d2", 100, "i2"⟩,
                        ⟨"d3", 100, "i3"⟩],
    payments_made := [⟨150, 0, "cash", "p1", none⟩] }

/-! ## Helper lemmas -/

theorem createBackup_plain {α : Type} (fs : FS α) :
    (createBackup fs).plain = fs.plain := by
  unfold createBackup
  cases hp : fs.plain with
  | some c => simp
  | none => cases hg : fs.gz <;> simp [hp, hg]

theorem createBackup_gz {α : Type} (fs : FS α) :
    (createBackup fs).gz = fs.gz := by
  unfold createBackup
  cases hp : fs.plain with
  | some c => simp
  | none => cases hg : fs.gz <;> simp [hp, hg]

theorem save_into_empty {α : Type} (isEmpty : α → Bool) (encSize : α → Nat)
    (critical : Bool) (d : α) (he : isEmpty d = false) :
    save_data isEmpty encSize critical false {} d
      = ((if encSize d > 3000 then { gz := some (.ok d) }
          else { plain := some (.ok d) } : FS α), .ok ()) := by
  by_cases hc : encSize d > 3000 <;>
    simp [save_data, createBackup, load_raw, hc, he]

theorem loadMemberRecord_eq (m : Member)
    (h : m.contact_type = "phone" → emailLike m.contact = false) :
    loadMemberRecord m = m := by
  by_cases hct : m.contact_type = "phone"
  · simp [loadMemberRecord, Member.postInit, hct, h hct]
    rw [← hct]
  · simp [loadMemberRecord, Member.postInit, hct]

theorem map_loadMemberRecord (d : MembersDoc)
    (h : ∀ p ∈ d, p.2.contact_type = "phone" → emailLike p.2.contact = false) :
    d.map (fun p => (p.1, loadMemberRecord p.2)) = d := by
  induction d with
  | nil => rfl
  | cons a rest ih =>
    simp only [List.map_cons, List.cons.injEq]
    constructor
    · rw [loadMemberRecord_eq a.2 (h a (by simp))]
    · exact ih (fun p hp => h p (by simp [hp]))

theorem loadTransactionRecord_eq (t : Transaction)
    (h : t.semester_id = "current") : loadTransactionRecord t = t := by
  cases t
  dsimp at h
  subst h
  rfl

theorem map_loadTransactionRecord (d : TransactionsDoc)
    (h : ∀ t ∈ d, t.semester_id = "current") :
    d.map loadTransactionRecord = d := by
  induction d with
  | nil => rfl
  | cons a rest ih =>
    simp only [List.map_cons, List.cons.injEq]
    exact ⟨loadTransactionRecord_eq a (h a (by simp)),
      ih (fun t ht => h t (by simp [ht]))⟩

theorem loadSemesterRecord_eq (r : Semester) : loadSemesterRecord r = r :=
  rfl

theorem removePaymentLoop_none (t : Transaction) (ps : List Payment)
    (h : ∀ pay ∈ ps, paymentMatch t pay = false) :
    removePaymentLoop t ps = none := by
  induction ps with
  | nil => rfl
  | cons a rest ih =>
    simp [removePaymentLoop, h a (by simp),
      ih (fun pay hp => h pay (by simp [hp]))]

theorem removePaymentLoop_first (t : Transaction) (ppre : List Payment)
    (p : Payment) (psuf : List Payment)
    (hppre : ∀ pay ∈ ppre, paymentMatch t pay = false)
    (hp : paymentMatch t p = true) :
    removePaymentLoop t (ppre ++ p :: psuf) = some (ppre ++ psuf) := by
  induction ppre with
  | nil => simp [removePaymentLoop, hp]
  | cons a rest ih =>
    simp [removePaymentLoop, hppre a (by simp),
      ih (fun pay hpay => hppre pay (by simp [hpay]))]

theorem lookupMember_setMember (ms : List (String × Member)) (k : String)
    (f : Member → Member) :
    lookupMember (setMember ms k f) k = (lookupMember ms k).map f := by
  induction ms with
  | nil => rfl
  | cons a rest ih =>
    cases a with
    | mk k2 m2 =>
      by_cases hk : k2 = k
      · simp [lookupMember, setMember, List.find?, hk]
      · simpa [lookupMember, setMember, List.find?, hk] using ih

theorem scheduleLoop_length (tp r : ℚ) (s : List Installment) :
    (scheduleLoop tp r s).length = s.length := by
  induction s generalizing r with
  | nil => rfl
  | cons a rest ih => simp [scheduleLoop, ih]

theorem scheduleLoop_get? (tp : ℚ) (s : List Installment) (r : ℚ)
    (i : Nat) (hi : i < s.length) (inst : Installment)
    (hinst : s.get ⟨i, hi⟩ = inst) :
    (scheduleLoop tp r s).get? i
      = some ⟨inst.due_date, inst.amount, inst.description,
          if tp ≥ r + ((s.take (i + 1)).map (fun x => x.amount)).sum
            then "paid" else "pending",
          min (if tp ≥ r + ((s.take (i + 1)).map (fun x => x.amount)).sum
                then 0
                else max 0 (r + ((s.take (i + 1)).map
                  (fun x => x.amount)).sum - tp))
            inst.amount⟩ := by
  induction s generalizing r i with
  | nil => exact absurd hi (by simp)
  | cons a rest ih =>
    cases i with
    | zero =>
      subst hinst
      by_cases hcmp : tp ≥ r + a.amount <;>
        simp [scheduleLoop, hcmp]
    | succ n =>
      have hn : n < rest.length := by simpa using hi
      have : rest.get ⟨n, hn⟩ = inst := by simpa using hinst
      rw [show (scheduleLoop tp r (a :: rest)).get? (n + 1)
            = (scheduleLoop tp (r + a.amount) rest).get? n from rfl,
        ih (r + a.amount) n hn this]
      simp [add_assoc]

theorem removeCorrespondingLoop_none (t : Transaction)
    (ms : List (String × Member))
    (h : ∀ q ∈ ms, ∀ pay ∈ q.2.payments_made, paymentMatch t pay = false) :
    removeCorrespondingLoop t ms = none := by
  induction ms with
  | nil => rfl
  | cons a rest ih =>
    cases a with
    | mk k m =>
      simp [removeCorrespondingLoop,
        removePaymentLoop_none t m.payments_made (h (k, m) (by simp)),
        ih (fun q hq => h q (by simp [hq]))]

theorem removeCorrespondingLoop_first (t : Transaction)
    (pre : List (String × Member)) (k : String) (m : Member)
    (post : List (String × Member)) (ppre : List Payment) (p : Payment)
    (psuf : List Payment)
    (hpre : ∀ q ∈ pre, ∀ pay ∈ q.2.payments_made, paymentMatch t pay = false)
    (hm : m.payments_made = ppre ++ p :: psuf)
    (hppre : ∀ pay ∈ ppre, paymentMatch t pay = false)
    (hp : paymentMatch t p = true) :
    removeCorrespondingLoop t (pre ++ (k, m) :: post)
      = some (pre ++ (k, { m with payments_made := ppre ++ psuf })
          :: post) := by
  induction pre with
  | nil =>
    simp [removeCorrespondingLoop, hm,
      removePaymentLoop_first t ppre p psuf hppre hp]
  | cons a rest ih =>
    cases a with
    | mk k2 m2 =>
      have ha : removePaymentLoop t m2.payments_made = none :=
        removePaymentLoop_none t m2.payments_made
          (hpre (k2, m2) (by simp))
      simp only [List.cons_append, removeCorrespondingLoop, ha,
        List.append_eq]
      rw [ih (fun q hq => hpre q (by simp [hq]))]
      rfl

theorem loadPendingRecord_eq (r : PendingBrother) :
    loadPendingRecord r = r :=
  rfl

/-! ## Claims -/

/-- C1 (counterexample).  The claim says that after any `save_data` call
exactly one on-disk representation exists and that save removes the other
representation's file.  Saving a 3100-byte document stores it compressed;
a following save of a 2900-byte document under the same name stores it
expanded but leaves the compressed file of the first document in place,
so both representations exist at once (and a load would return the stale
compressed document). -/
theorem claim_C1_counterexample :
    (saveDoc false false (saveDoc false false {} ⟨3100, true, 1⟩).1
        ⟨2900, true, 2⟩).2 = .ok () ∧
    (saveDoc false false (saveDoc false false {} ⟨3100, true, 1⟩).1
        ⟨2900, true, 2⟩).1.plain = some (.ok ⟨2900, true, 2⟩) ∧
    (saveDoc false false (saveDoc false false {} ⟨3100, true, 1⟩).1
        ⟨2900, true, 2⟩).1.gz = some (.ok ⟨3100, true, 1⟩) ∧
    loadDoc (saveDoc false false (saveDoc false false {} ⟨3100, true, 1⟩).1
        ⟨2900, true, 2⟩).1 = .ok (some ⟨3100, true, 1⟩) := by
  decide

/-- C1 (amended).  After a successful `save_data`: when the compact
encoding exceeds 3000 bytes, the document is stored compressed and the
expanded file is removed, so only the compressed representation exists;
when it is at most 3000 bytes, the document is stored expanded but a
pre-existing compressed file is NOT removed (`save_data` only deletes the
other representation in the compression branch), so both representations
can coexist. -/
theorem claim_C1_amended (fs : FS Doc) (d : Doc) (critical failWrite : Bool)
    (h : (saveDoc critical failWrite fs d).2 = .ok ()) :
    (d.encSize > 3000 →
      (saveDoc critical failWrite fs d).1.gz = some (.ok d) ∧
      (saveDoc critical failWrite fs d).1.plain = none) ∧
    (d.encSize ≤ 3000 →
      (saveDoc critical failWrite fs d).1.plain = some (.ok d) ∧
      (saveDoc critical failWrite fs d).1.gz = fs.gz) := by
  have hbp : (if critical = true then createBackup fs else fs).plain
      = fs.plain := by
    cases critical <;> simp [createBackup_plain]
  have hbg : (if critical = true then createBackup fs else fs).gz
      = fs.gz := by
    cases critical <;> simp [createBackup_gz]
  cases failWrite with
  | true =>
    exfalso
    by_cases hc : d.encSize > 3000 <;>
      simp [saveDoc, save_data, Doc.size, hc] at h
  | false =>
    by_cases hc : d.encSize > 3000
    · refine ⟨fun _ => ?_, fun hle => absurd hc (by omega)⟩
      by_cases he : Doc.isEmpty d
      · exfalso
        cases hp : fs.plain <;>
          simp [saveDoc, save_data, Doc.size, hc, load_raw, he, hbp, hp] at h
      · cases hp : fs.plain <;>
          simp [saveDoc, save_data, Doc.size, hc, load_raw, he, hbp, hp]
    · refine ⟨fun hgt => absurd hgt hc, fun _ => ?_⟩
      cases hg : fs.gz with
      | none =>
        by_cases he : Doc.isEmpty d
        · exfalso
          simp [saveDoc, save_data, Doc.size, hc, load_raw, he, hbg, hg] at h
        · simp [saveDoc, save_data, Doc.size, hc, load_raw, he, hbg, hg]
      | some c =>
        cases c with
        | ok d2 =>
          by_cases he2 : Doc.isEmpty d2
          · exfalso
            simp [saveDoc, save_data, Doc.size, hc, load_raw, hbg, hg,
              he2] at h
          · simp [saveDoc, save_data, Doc.size, hc, load_raw, hbg, hg, he2]
        | corrupt =>
          exfalso
          simp [saveDoc, save_data, Doc.size, hc, load_raw, hbg, hg] at h

/-- C1 witness: the amended theorem applied to a successful save of a
2900-byte document into an empty store. -/
theorem claim_C1_witness :
    (saveDoc false false ({} : FS Doc) (Doc.mk 2900 true 2)).2 = .ok () ∧
    ((Doc.mk 2900 true 2).encSize > 3000 →
      (saveDoc false false {} (Doc.mk 2900 true 2)).1.gz
          = some (.ok (Doc.mk 2900 true 2)) ∧
      (saveDoc false false {} (Doc.mk 2900 true 2)).1.plain = none) ∧
    ((Doc.mk 2900 true 2).encSize ≤ 3000 →
      (saveDoc false false {} (Doc.mk 2900 true 2)).1.plain
          = some (.ok (Doc.mk 2900 true 2)) ∧
      (saveDoc false false {} (Doc.mk 2900 true 2)).1.gz
          = ({} : FS Doc).gz) :=
  ⟨by decide, claim_C1_amended {} (Doc.mk 2900 true 2) false false (by decide)⟩

/-- C5 (counterexample).  The claim says that after a failed critical save
with a backup, a subsequent load returns the pre-failure document.  Start
from a store holding only the expanded file of document `⟨100, true, 3⟩`
and save a 5000-byte document whose compressed write fails: the backup is
made and restored (the expanded file again holds the old document) and
the error is re-raised, but the partially written compressed file is left
on disk, so a subsequent load hits the corrupt compressed file and raises
instead of returning the pre-failure document. -/
theorem claim_C5_counterexample :
    (saveDoc true true { plain := some (.ok (Doc.mk 100 true 3)) }
        (Doc.mk 5000 true 4)).2 = .error () ∧
    (saveDoc true true { plain := some (.ok (Doc.mk 100 true 3)) }
        (Doc.mk 5000 true 4)).1.plain = some (.ok (Doc.mk 100 true 3)) ∧
    (saveDoc true true { plain := some (.ok (Doc.mk 100 true 3)) }
        (Doc.mk 5000 true 4)).1.gz = some .corrupt ∧
    loadDoc (saveDoc true true { plain := some (.ok (Doc.mk 100 true 3)) }
        (Doc.mk 5000 true 4)).1 = .error () ∧
    loadDoc { plain := some (.ok (Doc.mk 100 true 3)) }
        = .ok (some (Doc.mk 100 true 3)) := by
  decide

/-- C5 (amended).  When the pre-failure document is stored expanded and a
small (≤ 3000 byte) write fails; when it is stored compressed and either
kind of write fails; and when the write succeeds but the verification
fails (the reachable case: an empty document — Python-falsy, so
`test_load` comes back `None` — saved over a nonempty expanded file) —
in each of these cases the backup is restored, the error is re-raised,
and a subsequent load returns the pre-failure document.  The remaining
combination — pre-failure document stored expanded, compressed write
fails — leaves the partial compressed file behind and a subsequent load
raises instead (the counterexample). -/
theorem claim_C5_amended (d0 d : Doc) (h0 : d0.nonNil = true) :
    (d.encSize ≤ 3000 →
      (saveDoc true true { plain := some (.ok d0) } d).2 = .error () ∧
      loadDoc (saveDoc true true { plain := some (.ok d0) } d).1
          = .ok (some d0)) ∧
    ((saveDoc true true { gz := some (.ok d0) } d).2 = .error () ∧
      loadDoc (saveDoc true true { gz := some (.ok d0) } d).1
          = .ok (some d0)) ∧
    (d.nonNil = false → d.encSize ≤ 3000 →
      (saveDoc true false { plain := some (.ok d0) } d).2 = .error () ∧
      loadDoc (saveDoc true false { plain := some (.ok d0) } d).1
          = .ok (some d0)) := by
  refine ⟨?_, ?_, ?_⟩
  · intro hle
    have hc : ¬ d.encSize > 3000 := by omega
    simp [saveDoc, save_data, Doc.size, loadDoc, load_raw, createBackup,
      restoreFromBackup, Doc.isEmpty, hc, h0]
  · by_cases hc : d.encSize > 3000 <;>
      simp [saveDoc, save_data, Doc.size, loadDoc, load_raw, createBackup,
        restoreFromBackup, Doc.isEmpty, hc, h0]
  · intro hde hle
    have hc : ¬ d.encSize > 3000 := by omega
    simp [saveDoc, save_data, Doc.size, loadDoc, load_raw, createBackup,
      restoreFromBackup, Doc.isEmpty, hc, h0, hde]

/-- C5 witness: the amended theorem applied to a 100-byte pre-failure
document, once with a failing 200-byte write and once with a succeeding
but verification-failing save of an empty (2-byte, falsy) document. -/
theorem claim_C5_witness :
    (Doc.mk 100 true 3).nonNil = true ∧
    ((Doc.mk 200 true 5).encSize ≤ 3000 →
      (saveDoc true true { plain := some (.ok (Doc.mk 100 true 3)) }
          (Doc.mk 200 true 5)).2 = .error () ∧
      loadDoc (saveDoc true true { plain := some (.ok (Doc.mk 100 true 3)) }
          (Doc.mk 200 true 5)).1 = .ok (some (Doc.mk 100 true 3))) ∧
    ((saveDoc true true { gz := some (.ok (Doc.mk 100 true 3)) }
          (Doc.mk 200 true 5)).2 = .error () ∧
      loadDoc (saveDoc true true { gz := some (.ok (Doc.mk 100 true 3)) }
          (Doc.mk 200 true 5)).1 = .ok (some (Doc.mk 100 true 3))) ∧
    ((Doc.mk 2 false 6).nonNil = false ∧
      (Doc.mk 2 false 6).encSize ≤ 3000 ∧
      (saveDoc true false { plain := some (.ok (Doc.mk 100 true 3)) }
          (Doc.mk 2 false 6)).2 = .error () ∧
      loadDoc (saveDoc true false { plain := some (.ok (Doc.mk 100 true 3)) }
          (Doc.mk 2 false 6)).1 = .ok (some (Doc.mk 100 true 3))) :=
  ⟨by decide,
   (claim_C5_amended (Doc.mk 100 true 3) (Doc.mk 200 true 5)
     (by decide)).1,
   (claim_C5_amended (Doc.mk 100 true 3) (Doc.mk 200 true 5)
     (by decide)).2.1,
   by decide, by decide,
   (claim_C5_amended (Doc.mk 100 true 3) (Doc.mk 2 false 6)
     (by decide)).2.2 (by decide) (by decide)⟩

/-- C3 (counterexample).  The claim says every field of every record
survives the save-then-load round trip, in particular a Transaction's
`semester_id`.  Saving a transaction with `semester_id = 'fall_2024'` and
loading it back yields `semester_id = 'current'`: the `transactions.json`
branch of `load_data` rebuilds the `Transaction` without passing
`semester_id`, so the dataclass default replaces the stored value. -/
theorem claim_C3_counterexample :
    saveLoadTransactions (fun _ => 100)
        [{ id := "t1", date := 0, category := "Rent", description := "x",
           amount := 10, type := "expense", semester_id := "fall_2024" }]
      = .ok [{ id := "t1", date := 0, category := "Rent",
               description := "x", amount := 10, type := "expense",
               semester_id := "current" }] ∧
    saveLoadTransactions (fun _ => 100)
        [{ id := "t1", date := 0, category := "Rent", description := "x",
           amount := 10, type := "expense", semester_id := "fall_2024" }]
      ≠ .ok [{ id := "t1", date := 0, category := "Rent",
               description := "x", amount := 10, type := "expense",
               semester_id := "fall_2024" }] := by
  decide

/-- C3 (amended).  For every nonempty document of the persisted logical
names, loading immediately after saving into a fresh store returns the
document unchanged, EXCEPT that every Transaction's `semester_id` is
reset to `'current'` and a Member whose stored `contact_type` is
`'phone'` while its contact looks like an email is reclassified by
`__post_init__`; for documents without those features the round trip is
the identity.  (An empty document cannot be round-tripped at all: its
save fails verification and raises.)  Stated for an arbitrary
compact-encoding size function, covering both the expanded and the
compressed storage branch. -/
theorem claim_C3_amended :
    (∀ (encSize : MembersDoc → Nat) (d : MembersDoc),
      d.isEmpty = false →
      (∀ p ∈ d, p.2.contact_type = "phone" → emailLike p.2.contact = false) →
      saveLoadMembers encSize d = .ok d) ∧
    (∀ (encSize : TransactionsDoc → Nat) (d : TransactionsDoc),
      d.isEmpty = false →
      (∀ t ∈ d, t.semester_id = "current") →
      saveLoadTransactions encSize d = .ok d) ∧
    (∀ (encSize : SemestersDoc → Nat) (d : SemestersDoc),
      d.isEmpty = false → saveLoadSemesters encSize d = .ok d) ∧
    (∀ (encSize : PendingDoc → Nat) (d : PendingDoc),
      d.isEmpty = false → saveLoadPending encSize d = .ok d) ∧
    (∀ (encSize : Doc → Nat) (dflt d : Doc),
      d.nonNil = true → saveLoadPlain encSize dflt d = .ok d) := by
  refine ⟨?_, ?_, ?_, ?_, ?_⟩
  · intro encSize d he hm
    rw [saveLoadMembers, save_into_empty _ _ _ _ he]
    by_cases hc : encSize d > 3000 <;>
      simp [load_data, load_raw, hc, he, map_loadMemberRecord d hm]
  · intro encSize d he ht
    rw [saveLoadTransactions, save_into_empty _ _ _ _ he]
    by_cases hc : encSize d > 3000 <;>
      simp [load_data, load_raw, hc, he, map_loadTransactionRecord d ht]
  · intro encSize d he
    rw [saveLoadSemesters, save_into_empty _ _ _ _ he]
    by_cases hc : encSize d > 3000 <;>
      simp [load_data, load_raw, hc, he, loadSemesterRecord_eq]
  · intro encSize d he
    rw [saveLoadPending, save_into_empty _ _ _ _ he]
    by_cases hc : encSize d > 3000 <;>
      simp [load_data, load_raw, hc, he, loadPendingRecord_eq]
  · intro encSize dflt d he
    have he2 : Doc.isEmpty d = false := by simp [Doc.isEmpty, he]
    rw [saveLoadPlain, save_into_empty _ _ _ _ he2]
    by_cases hc : encSize d > 3000 <;>
      simp [load_data, load_raw, hc, he2]

/-- C3 witness: the amended round trip applied to concrete nonempty
documents of each logical name. -/
theorem claim_C3_witness :
    saveLoadMembers (fun _ => 10) [("m1", exMember)]
      = .ok [("m1", exMember)] ∧
    saveLoadTransactions (fun _ => 5000) [exTransaction]
      = .ok [exTransaction] ∧
    saveLoadSemesters (fun _ => 10) [("f24", exSemester)]
      = .ok [("f24", exSemester)] ∧
    saveLoadPending (fun _ => 10) [("p1", exPending)]
      = .ok [("p1", exPending)] ∧
    saveLoadPlain (fun _ => 10) (Doc.mk 0 false 0) (Doc.mk 42 true 7)
      = .ok (Doc.mk 42 true 7) :=
  ⟨claim_C3_amended.1 (fun _ => 10) _ (by decide) (by decide),
   claim_C3_amended.2.1 (fun _ => 5000) _ (by decide) (by decide),
   claim_C3_amended.2.2.1 (fun _ => 10) _ (by decide),
   claim_C3_amended.2.2.2.1 (fun _ => 10) _ (by decide),
   claim_C3_amended.2.2.2.2 (fun _ => 10) (Doc.mk 0 false 0) _ (by decide)⟩

/-- C2 (counterexample).  The claim says that when the persistence call
raises, the in-memory state is reverted to its value before the
mutation.  `add_transaction` on an empty ledger with a failing save
surfaces the error, but the transactions list still holds the appended
transaction — no mutation in `app.py` is wrapped in a try/except that
would undo it. -/
theorem claim_C2_counterexample :
    (add_transaction ⟨[], []⟩ true "Rent" "October rent" 500 "expense"
        "t1" 0).2 = .error () ∧
    (add_transaction ⟨[], []⟩ true "Rent" "October rent" 500 "expense"
        "t1" 0).1.transactions
      = [{ id := "t1", date := 0, category := "Rent",
           description := "October rent", amount := 500,
           type := "expense" }] ∧
    (add_transaction ⟨[], []⟩ true "Rent" "October rent" 500 "expense"
        "t1" 0).1.transactions ≠ (⟨[], []⟩ : LedgerState).transactions := by
  decide

/-- C2 (amended).  For every mutation operation, if the persistence call
raises, the error is surfaced to the caller, but the in-memory state is
NOT reverted: it is exactly the state a successful call would have left
(the mutation stays applied to the members map and the transactions
list). -/
theorem claim_C2_amended :
    (∀ (st : LedgerState) (category description : String) (amount : ℚ)
        (ttype newId : String) (now : Int),
      (add_transaction st true category description amount ttype newId
          now).1
        = (add_transaction st false category description amount ttype
            newId now).1 ∧
      (add_transaction st true category description amount ttype newId
          now).2 = .error ()) ∧
    (∀ (st : LedgerState) (tid : String) (p : Nat × Transaction),
      firstWithId st.transactions tid = some p →
      (remove_transaction st false true tid).1
        = (remove_transaction st false false tid).1 ∧
      (remove_transaction st false true tid).2 = .error ()) ∧
    (∀ (st : LedgerState) (member_id : String) (amount : ℚ)
        (method : String) (date : Option Int) (newTid newPid : String)
        (now : Int) (m : Member),
      lookupMember st.members member_id = some m →
      (record_payment st false true member_id amount method date newTid
          newPid now).1
        = (record_payment st false false member_id amount method date
            newTid newPid now).1 ∧
      (record_payment st false true member_id amount method date newTid
          newPid now).2 = .error ()) ∧
    (∀ (st : LedgerState) (newId name contact : String) (dues : ℚ)
        (plan : String) (cs : Option (List Installment))
        (dueDate : Nat → String) (nowIso : String),
      (add_member st true newId name contact dues plan cs dueDate
          nowIso).1
        = (add_member st false newId name contact dues plan cs dueDate
            nowIso).1 ∧
      (add_member st true newId name contact dues plan cs dueDate
          nowIso).2 = .error ()) ∧
    (∀ (st : LedgerState) (member_id name contact : String) (dues : ℚ)
        (plan : String) (cs : Option (List Installment))
        (role : Option String) (dueDate : Nat → String) (nowIso : String)
        (m : Member),
      lookupMember st.members member_id = some m →
      (update_member st true member_id name contact dues plan cs role
          dueDate nowIso).1
        = (update_member st false member_id name contact dues plan cs role
            dueDate nowIso).1 ∧
      (update_member st true member_id name contact dues plan cs role
          dueDate nowIso).2 = .error ()) := by
  refine ⟨?_, ?_, ?_, ?_, ?_⟩
  · intro st category description amount ttype newId now
    simp [add_transaction]
  · intro st tid p hp
    cases p with
    | mk i t =>
      constructor <;>
        cases hg : (t.category = "Dues Collection" && t.type = "income") <;>
          simp [remove_transaction, hp, hg,
            remove_corresponding_member_payment] <;>
            cases hr : removeCorrespondingLoop t st.members <;> simp [hr]
  · intro st member_id amount method date newTid newPid now m hm
    simp [record_payment, hm, add_transaction]
  · intro st newId name contact dues plan cs dueDate nowIso
    simp [add_member]
  · intro st member_id name contact dues plan cs role dueDate nowIso m hm
    cases cs <;> simp [update_member, hm]

/-- C2 witness: the amended theorem applied to concrete one-element
states with failing saves for each of the five mutations. -/
theorem claim_C2_witness :
    ((add_transaction ⟨[], []⟩ true "Rent" "r" 500 "expense" "t1" 0).1
        = (add_transaction ⟨[], []⟩ false "Rent" "r" 500 "expense" "t1"
            0).1 ∧
      (add_transaction ⟨[], []⟩ true "Rent" "r" 500 "expense" "t1" 0).2
        = .error ()) ∧
    ((remove_transaction ⟨[], [exTransaction]⟩ false true "t1").1
        = (remove_transaction ⟨[], [exTransaction]⟩ false false "t1").1 ∧
      (remove_transaction ⟨[], [exTransaction]⟩ false true "t1").2
        = .error ()) ∧
    ((record_payment ⟨[("m1", exMember)], []⟩ false true "m1" 50 "cash"
          none "t9" "p9" 7).1
        = (record_payment ⟨[("m1", exMember)], []⟩ false false "m1" 50
            "cash" none "t9" "p9" 7).1 ∧
      (record_payment ⟨[("m1", exMember)], []⟩ false true "m1" 50 "cash"
          none "t9" "p9" 7).2 = .error ()) ∧
    ((add_member ⟨[], []⟩ true "m3" "C" "5551111" 200 "semester" none
          (fun _ => "d") "now").1
        = (add_member ⟨[], []⟩ false "m3" "C" "5551111" 200 "semester"
            none (fun _ => "d") "now").1 ∧
      (add_member ⟨[], []⟩ true "m3" "C" "5551111" 200 "semester" none
          (fun _ => "d") "now").2 = .error ()) ∧
    ((update_member ⟨[("m1", exMember)], []⟩ true "m1" "A2" "5551234" 120
          "semester" none none (fun _ => "d") "now").1
        = (update_member ⟨[("m1", exMember)], []⟩ false "m1" "A2"
            "5551234" 120 "semester" none none (fun _ => "d") "now").1 ∧
      (update_member ⟨[("m1", exMember)], []⟩ true "m1" "A2" "5551234" 120
          "semester" none none (fun _ => "d") "now").2 = .error ()) :=
  ⟨claim_C2_amended.1 ⟨[], []⟩ "Rent" "r" 500 "expense" "t1" 0,
   claim_C2_amended.2.1 ⟨[], [exTransaction]⟩ "t1" (0, exTransaction)
     (by decide),
   claim_C2_amended.2.2.1 ⟨[("m1", exMember)], []⟩ "m1" 50 "cash" none
     "t9" "p9" 7 exMember (by decide),
   claim_C2_amended.2.2.2.1 ⟨[], []⟩ "m3" "C" "5551111" 200 "semester"
     none (fun _ => "d") "now",
   claim_C2_amended.2.2.2.2 ⟨[("m1", exMember)], []⟩ "m1" "A2" "5551234"
     120 "semester" none none (fun _ => "d") "now" exMember (by decide)⟩

/-- C4 (counterexample).  The claim says the exact `transaction_id` match
is a separate first pass, so the fuzzy fallback fires only when no
payment anywhere carries a matching id.  In the code both tests are
interleaved in one scan: with `exPayerMember` holding the legacy payment
(amount 25 at 1030, no id) before the linked payment
(`transaction_id = "T1"`), removing `exDuesTransaction` (id `T1`, amount
25 at 1000) fuzzy-deletes the legacy payment and leaves the
exactly-linked payment in place. -/
theorem claim_C4_counterexample :
    exactMatch exDuesTransaction exLinkedPayment = true ∧
    remove_corresponding_member_payment ⟨[("m1", exPayerMember)], []⟩
        false exDuesTransaction
      = (⟨[("m1", { exPayerMember with
            payments_made := [exLinkedPayment] })], []⟩, .ok true) := by
  decide

/-- C4 (amended).  `_remove_corresponding_member_payment` performs a
single scan, members in insertion order and each member's payments in
order, deleting the first payment that satisfies the exact test OR the
fuzzy test (`paymentMatch`): if every payment of every earlier member and
every earlier payment of one member fails both tests and payment `p`
satisfies one, exactly `p` is deleted (and the call reports success);
if no payment anywhere satisfies either test, nothing is removed and the
call reports failure.  The fuzzy fallback can therefore fire on an
earlier payment even when a later payment carries the matching
`transaction_id`. -/
theorem claim_C4_amended :
    (∀ (pre post : List (String × Member)) (k : String) (m : Member)
        (ppre psuf : List Payment) (p : Payment) (ts : List Transaction)
        (t : Transaction),
      (∀ q ∈ pre, ∀ pay ∈ q.2.payments_made, paymentMatch t pay = false) →
      m.payments_made = ppre ++ p :: psuf →
      (∀ pay ∈ ppre, paymentMatch t pay = false) →
      paymentMatch t p = true →
      remove_corresponding_member_payment ⟨pre ++ (k, m) :: post, ts⟩
          false t
        = (⟨pre ++ (k, { m with payments_made := ppre ++ psuf }) :: post,
            ts⟩, .ok true)) ∧
    (∀ (ms : List (String × Member)) (ts : List Transaction)
        (t : Transaction),
      (∀ q ∈ ms, ∀ pay ∈ q.2.payments_made, paymentMatch t pay = false) →
      remove_corresponding_member_payment ⟨ms, ts⟩ false t
        = (⟨ms, ts⟩, .ok false)) := by
  constructor
  · intro pre post k m ppre psuf p ts t hpre hm hppre hp
    simp [remove_corresponding_member_payment,
      removeCorrespondingLoop_first t pre k m post ppre p psuf hpre hm
        hppre hp]
  · intro ms ts t h
    simp [remove_corresponding_member_payment,
      removeCorrespondingLoop_none t ms h]

/-- C4 witness: the amended theorem applied to the one-member state whose
first payment is the fuzzy match. -/
theorem claim_C4_witness :
    remove_corresponding_member_payment
        ⟨[] ++ ("m1", exPayerMember) :: [], []⟩ false exDuesTransaction
      = (⟨[] ++ ("m1", { exPayerMember with
            payments_made := [] ++ [exLinkedPayment] }) :: [], []⟩,
          .ok true) :=
  claim_C4_amended.1 [] [] "m1" exPayerMember [] [exLinkedPayment]
    exLegacyPayment [] exDuesTransaction (by decide) (by decide)
    (by decide) (by decide)

/-- C6 (confirmed).  `get_member_payment_schedule` walks the installments
in order with a running cumulative-due total: the i-th entry is `paid`
exactly when the member's total payments reach the i-th cumulative
threshold, else `pending` with
`amount_due = min(installment.amount, max(0, threshold - total_paid))`;
and on installments [100, 100, 100] with a single payment of 150 it
returns `paid`, `pending`/50, `pending`/100. -/
theorem claim_C6 (st : LedgerState) (member_id : String) (m : Member)
    (hm : lookupMember st.members member_id = some m) :
    (get_member_payment_schedule st member_id).length
        = m.custom_schedule.length ∧
    (∀ (i : Nat) (hi : i < m.custom_schedule.length),
      ((get_member_payment_schedule st member_id).get? i).map
          (fun s => s.status)
        = some (if (m.payments_made.map (fun p => p.amount)).sum
                  ≥ ((m.custom_schedule.take (i + 1)).map
                      (fun x => x.amount)).sum
                then "paid" else "pending") ∧
      ((m.payments_made.map (fun p => p.amount)).sum
          < ((m.custom_schedule.take (i + 1)).map
              (fun x => x.amount)).sum →
        ((get_member_payment_schedule st member_id).get? i).map
            (fun s => s.amount_due)
          = some (min (m.custom_schedule.get ⟨i, hi⟩).amount
              (max 0 (((m.custom_schedule.take (i + 1)).map
                  (fun x => x.amount)).sum
                - (m.payments_made.map (fun p => p.amount)).sum))))) ∧
    (get_member_payment_schedule ⟨[("f", exFifoMember)], []⟩ "f").map
        (fun s => (s.status, s.amount_due))
      = [("paid", 0), ("pending", 50), ("pending", 100)] := by
  have hg : get_member_payment_schedule st member_id
      = scheduleLoop ((m.payments_made.map (fun p => p.amount)).sum) 0
          m.custom_schedule := by
    simp [get_member_payment_schedule, hm]
  refine ⟨?_, ?_, ?_⟩
  · rw [hg, scheduleLoop_length]
  · intro i hi
    rw [hg, scheduleLoop_get? _ _ 0 i hi (m.custom_schedule.get ⟨i, hi⟩)
      rfl]
    constructor
    · simp
    · intro hlt
      have hcmp : ¬ ((m.payments_made.map (fun p => p.amount)).sum
          ≥ 0 + ((m.custom_schedule.take (i + 1)).map
              (fun x => x.amount)).sum) := by
        rw [zero_add]
        exact not_le.mpr hlt
      rw [Option.map_some', if_neg hcmp]
      simp only [zero_add]
      rw [min_comm]
      rw [if_neg (not_le.mpr hlt)]
  · norm_num [get_member_payment_schedule, lookupMember, List.find?,
      exFifoMember, exMember, scheduleLoop, min_def, max_def]

/-- C6 witness: the theorem applied to the FIFO example member at
installment index 1 (the second installment: `pending` with
`amount_due = 50`). -/
theorem claim_C6_witness :
    ((get_member_payment_schedule ⟨[("f", exFifoMember)], []⟩ "f").get?
        1).map (fun s => s.status)
      = some (if (exFifoMember.payments_made.map (fun p => p.amount)).sum
                ≥ ((exFifoMember.custom_schedule.take 2).map
                    (fun x => x.amount)).sum
              then "paid" else "pending") ∧
    ((exFifoMember.payments_made.map (fun p => p.amount)).sum
        < ((exFifoMember.custom_schedule.take 2).map
            (fun x => x.amount)).sum →
      ((get_member_payment_schedule ⟨[("f", exFifoMember)], []⟩ "f").get?
          1).map (fun s => s.amount_due)
        = some (min (exFifoMember.custom_schedule.get
              ⟨1, by decide⟩).amount
            (max 0 (((exFifoMember.custom_schedule.take 2).map
                (fun x => x.amount)).sum
              - (exFifoMember.payments_made.map
                  (fun p => p.amount)).sum)))) :=
  (claim_C6 ⟨[("f", exFifoMember)], []⟩ "f" exFifoMember (by decide)).2.1
    1 (by decide)

/-- C7 (confirmed).  For the `monthly`, `bimonthly` and `semester` plans
`generate_payment_schedule` produces 4, 2 and 1 installments of
`dues_amount/4`, `dues_amount/2` and the full amount respectively, whose
amounts sum to `dues_amount` (within the claimed 1e-6 tolerance; in the
rational model the sum is exact). -/
theorem claim_C7 (m : Member) (dueDate : Nat → String) (nowIso : String)
    (h0 : 0 ≤ m.dues_amount) :
    (m.payment_plan = "monthly" →
      (generate_payment_schedule dueDate nowIso m).custom_schedule.length
          = 4 ∧
      (∀ inst ∈ (generate_payment_schedule dueDate nowIso
          m).custom_schedule, inst.amount = m.dues_amount / 4) ∧
      |((generate_payment_schedule dueDate nowIso m).custom_schedule.map
          (fun s => s.amount)).sum - m.dues_amount| ≤ 1 / 1000000) ∧
    (m.payment_plan = "bimonthly" →
      (generate_payment_schedule dueDate nowIso m).custom_schedule.length
          = 2 ∧
      (∀ inst ∈ (generate_payment_schedule dueDate nowIso
          m).custom_schedule, inst.amount = m.dues_amount / 2) ∧
      |((generate_payment_schedule dueDate nowIso m).custom_schedule.map
          (fun s => s.amount)).sum - m.dues_amount| ≤ 1 / 1000000) ∧
    (m.payment_plan = "semester" →
      (generate_payment_schedule dueDate nowIso m).custom_schedule.length
          = 1 ∧
      (∀ inst ∈ (generate_payment_schedule dueDate nowIso
          m).custom_schedule, inst.amount = m.dues_amount) ∧
      |((generate_payment_schedule dueDate nowIso m).custom_schedule.map
          (fun s => s.amount)).sum - m.dues_amount| ≤ 1 / 1000000) := by
  refine ⟨?_, ?_, ?_⟩ <;> intro hp <;>
    refine ⟨by simp [generate_payment_schedule, hp], ?_, ?_⟩
  · simp [generate_payment_schedule, hp]
  · have hsum : ((generate_payment_schedule dueDate nowIso
        m).custom_schedule.map (fun s => s.amount)).sum
          - m.dues_amount = 0 := by
      simp [generate_payment_schedule, hp, List.range_succ]
      try ring
    rw [hsum]
    norm_num
  · simp [generate_payment_schedule, hp]
  · have hsum : ((generate_payment_schedule dueDate nowIso
        m).custom_schedule.map (fun s => s.amount)).sum
          - m.dues_amount = 0 := by
      simp [generate_payment_schedule, hp, List.range_succ]
      try ring
    rw [hsum]
    norm_num
  · simp [generate_payment_schedule, hp]
  · have hsum : ((generate_payment_schedule dueDate nowIso
        m).custom_schedule.map (fun s => s.amount)).sum
          - m.dues_amount = 0 := by
      simp [generate_payment_schedule, hp]
    rw [hsum]
    norm_num

/-- C7 witness: the theorem applied to a member on the `monthly` plan
with dues 100. -/
theorem claim_C7_witness :
    0 ≤ exMember.dues_amount ∧
    (exMember.payment_plan = "monthly" →
      (generate_payment_schedule (fun _ => "d") "now"
          exMember).custom_schedule.length = 4 ∧
      (∀ inst ∈ (generate_payment_schedule (fun _ => "d") "now"
          exMember).custom_schedule,
        inst.amount = exMember.dues_amount / 4) ∧
      |((generate_payment_schedule (fun _ => "d") "now"
          exMember).custom_schedule.map (fun s => s.amount)).sum
        - exMember.dues_amount| ≤ 1 / 1000000) :=
  ⟨by norm_num [exMember],
   (claim_C7 exMember (fun _ => "d") "now" (by norm_num [exMember])).1⟩

/-- C8 (counterexample).  The claim says a `custom`-plan member edited
without a new explicit custom schedule keeps their existing
`custom_schedule`.  Calling `update_member` on `exCustomMember` (plan
`custom`, two installments) without a schedule invokes
`generate_payment_schedule`, which clears the schedule and, because the
plan matches none of `monthly`/`bimonthly`/`semester`, leaves it empty:
the member's two installments are lost. -/
theorem claim_C8_counterexample :
    (update_member ⟨[("m2", exCustomMember)], []⟩ false "m2"
        exCustomMember.name exCustomMember.contact
        exCustomMember.dues_amount "custom" none none (fun _ => "d")
        "now").2 = .ok true ∧
    (lookupMember (update_member ⟨[("m2", exCustomMember)], []⟩ false "m2"
        exCustomMember.name exCustomMember.contact
        exCustomMember.dues_amount "custom" none none (fun _ => "d")
        "now").1.members "m2").map (fun x => x.custom_schedule)
      = some [] ∧
    exCustomMember.custom_schedule ≠ [] := by
  decide

/-- C8 (amended).  When `update_member` receives an explicit custom
schedule it is stored verbatim (the generator is not invoked); when it
receives none, `generate_payment_schedule` IS invoked even for a
`custom`-plan member, and — since the generator first clears the
schedule and rebuilds it only for the three machine plans — the member's
custom schedule is reset to the empty list. -/
theorem claim_C8_amended (st : LedgerState)
    (member_id name contact : String) (dues : ℚ) (cs : List Installment)
    (role : Option String) (dueDate : Nat → String) (nowIso : String)
    (m : Member) (hm : lookupMember st.members member_id = some m) :
    ((lookupMember (update_member st false member_id name contact dues
          "custom" (some cs) role dueDate nowIso).1.members
        member_id).map (fun x => x.custom_schedule) = some cs ∧
      (update_member st false member_id name contact dues "custom"
          (some cs) role dueDate nowIso).2 = .ok true) ∧
    ((lookupMember (update_member st false member_id name contact dues
          "custom" none role dueDate nowIso).1.members member_id).map
          (fun x => x.custom_schedule) = some [] ∧
      (update_member st false member_id name contact dues "custom" none
          role dueDate nowIso).2 = .ok true) := by
  constructor
  · cases role <;> simp [update_member, hm, lookupMember_setMember]
  · cases role <;>
      simp [update_member, hm, lookupMember_setMember,
        generate_payment_schedule_st, generate_payment_schedule]

/-- C8 witness: the amended theorem applied to the custom-plan member
`exCustomMember`, once with a replacement one-installment schedule and
once without one. -/
theorem claim_C8_witness :
    ((lookupMember (update_member ⟨[("m2", exCustomMember)], []⟩ false
          "m2" "Bob" "5559876" 300 "custom"
          (some [⟨"2025-06-01", 300, "all"⟩]) none (fun _ => "d")
          "now").1.members "m2").map (fun x => x.custom_schedule)
        = some [⟨"2025-06-01", 300, "all"⟩] ∧
      (update_member ⟨[("m2", exCustomMember)], []⟩ false "m2" "Bob"
          "5559876" 300 "custom" (some [⟨"2025-06-01", 300, "all"⟩]) none
          (fun _ => "d") "now").2 = .ok true) ∧
    ((lookupMember (update_member ⟨[("m2", exCustomMember)], []⟩ false
          "m2" "Bob" "5559876" 300 "custom" none none (fun _ => "d")
          "now").1.members "m2").map (fun x => x.custom_schedule)
        = some [] ∧
      (update_member ⟨[("m2", exCustomMember)], []⟩ false "m2" "Bob"
          "5559876" 300 "custom" none none (fun _ => "d") "now").2
        = .ok true) :=
  claim_C8_amended ⟨[("m2", exCustomMember)], []⟩ "m2" "Bob" "5559876"
    300 [⟨"2025-06-01", 300, "all"⟩] none (fun _ => "d") "now"
    exCustomMember (by decide)

/-- C9 (counterexample).  The claim says a negative amount is rejected as
a validation failure before any mutation.  `add_transaction` with amount
-50 succeeds and appends the transaction: neither `add_transaction` nor
`record_payment` (nor any route handler) checks the sign of the
amount. -/
theorem claim_C9_counterexample :
    (add_transaction ⟨[], []⟩ false "Miscellaneous" "refund" (-50)
        "expense" "t1" 0).2 = .ok "t1" ∧
    (add_transaction ⟨[], []⟩ false "Miscellaneous" "refund" (-50)
        "expense" "t1" 0).1.transactions
      = [{ id := "t1", date := 0, category := "Miscellaneous",
           description := "refund", amount := -50,
           type := "expense" }] := by
  decide

/-- C9 (amended).  No negative-amount validation exists: for any amount
< 0, `add_transaction` appends (and persists) the transaction and
returns its id, and `record_payment` on an existing member appends both
the `Dues Collection` income transaction and the linked member payment,
returning success. -/
theorem claim_C9_amended :
    (∀ (st : LedgerState) (category description : String) (amount : ℚ)
        (ttype newId : String) (now : Int), amount < 0 →
      (add_transaction st false category description amount ttype newId
          now).2 = .ok newId ∧
      (add_transaction st false category description amount ttype newId
          now).1.transactions
        = st.transactions ++
          [{ id := newId, date := now, category := category,
             description := description, amount := amount,
             type := ttype }]) ∧
    (∀ (st : LedgerState) (member_id : String) (amount : ℚ)
        (method : String) (date : Option Int) (newTid newPid : String)
        (now : Int) (m : Member), amount < 0 →
      lookupMember st.members member_id = some m →
      (record_payment st false false member_id amount method date newTid
          newPid now).2 = .ok true ∧
      (lookupMember (record_payment st false false member_id amount
            method date newTid newPid now).1.members member_id).map
          (fun x => x.payments_made)
        = some (m.payments_made ++
            [{ amount := amount, date := date.getD now, method := method,
               id := newPid, transaction_id := some newTid }]) ∧
      (record_payment st false false member_id amount method date newTid
          newPid now).1.transactions
        = st.transactions ++
          [{ id := newTid, date := now, category := "Dues Collection",
             description := "Payment from " ++ m.name, amount := amount,
             type := "income" }]) := by
  constructor
  · intro st category description amount ttype newId now hneg
    simp [add_transaction]
  · intro st member_id amount method date newTid newPid now m hneg hm
    simp [record_payment, hm, add_transaction, lookupMember_setMember]

/-- C9 witness: the amended theorem applied to a payment of -25 recorded
for the member `exMember`. -/
theorem claim_C9_witness :
    (-25 : ℚ) < 0 ∧
    ((record_payment ⟨[("m1", exMember)], []⟩ false false "m1" (-25)
        "cash" none "t9" "p9" 7).2 = .ok true ∧
    (lookupMember (record_payment ⟨[("m1", exMember)], []⟩ false false
          "m1" (-25) "cash" none "t9" "p9" 7).1.members "m1").map
        (fun x => x.payments_made)
      = some (exMember.payments_made ++
          [{ amount := -25, date := (none : Option Int).getD 7,
             method := "cash", id := "p9",
             transaction_id := some "t9" }]) ∧
    (record_payment ⟨[("m1", exMember)], []⟩ false false "m1" (-25)
        "cash" none "t9" "p9" 7).1.transactions
      = [] ++
        [{ id := "t9", date := 7, category := "Dues Collection",
           description := "Payment from " ++ exMember.name,
           amount := -25, type := "income" }]) :=
  ⟨by norm_num,
   claim_C9_amended.2 ⟨[("m1", exMember)], []⟩ "m1" (-25) "cash" none
     "t9" "p9" 7 exMember (by norm_num) (by decide)⟩

/-- C10 (confirmed).  Removing a transaction that is not a `Dues
Collection` income transaction deletes exactly that transaction (the
first one carrying the requested id) from the transactions list, reports
success, and leaves the members map — every member, every payment —
entirely unchanged: the payment-removal guard only runs for `Dues
Collection`/`income` transactions. -/
theorem claim_C10 (st : LedgerState) (tid : String) (i : Nat)
    (t : Transaction)
    (hfind : firstWithId st.transactions tid = some (i, t))
    (hguard : (t.category = "Dues Collection" && t.type = "income")
      = false) :
    (remove_transaction st false false tid).1.members = st.members ∧
    (remove_transaction st false false tid).1.transactions
      = st.transactions.eraseIdx i ∧
    (remove_transaction st false false tid).2 = .ok true := by
  simp [remove_transaction, hfind, hguard]

/-- C10 witness: the theorem applied to a one-member state holding the
expense transaction `exTransaction`. -/
theorem claim_C10_witness :
    (remove_transaction ⟨[("m1", exMember)], [exTransaction]⟩ false false
        "t1").1.members = (⟨[("m1", exMember)], [exTransaction]⟩ :
        LedgerState).members ∧
    (remove_transaction ⟨[("m1", exMember)], [exTransaction]⟩ false false
        "t1").1.transactions = [exTransaction].eraseIdx 0 ∧
    (remove_transaction ⟨[("m1", exMember)], [exTransaction]⟩ false false
        "t1").2 = .ok true :=
  claim_C10 ⟨[("m1", exMember)], [exTransaction]⟩ "t1" 0 exTransaction
    (by decide) (by decide)

end FratTreasurer
